import Mathlib

/-!
Shallow embedding of `src/app/static/js/view/LogView.js` from the golmi
repository: the client-side session logger (class `LogView`).

Modelling conventions:
* JSON-compatible values are the inductive `JVal`; the event payload
  mappings (objs, grippers, config) are association lists
  `JMap = List (String × JVal)`, matching the payload shapes of the spec.
  JavaScript object-key insertion semantics are mirrored by `setKey`.
* The JS object `this.data` holds the log array under the reserved key
  "log" plus the auxiliary keys added by `addData`; since `addData`
  refuses the key "log", the two parts never collide and are modelled as
  the separate fields `log` and `aux` of `LogView`.
* `this.startTime` is `undefined` until the first qualifying
  `update_state` event and is then set to `Date.now()`.  The JS guard is
  the truthiness test `!this.startTime`; since `Date.now()` is strictly
  positive in any real session, truthiness coincides with the field being
  set, modelled as `Option Int` with the guard `isSome`.  Each event
  reaction takes the current wall-clock time `now : Int` as an explicit
  argument standing for its call to `Date.now()`.
* Side effects of a method are returned explicitly: the successor state,
  and for `addData` also the console output and the JS return value
  (the JS method has no `return` statement, so callers receive
  `undefined` on every path, modelled by `JsReturn.undefined`).
-/

/-- JSON-compatible values (design note of the spec: tagged union of
null, bool, number, string, array, object). Numbers are modelled as
integers; the logger never computes with payload contents. -/
inductive JVal where
  | null : JVal
  | bool (b : Bool) : JVal
  | num (n : Int) : JVal
  | str (s : String) : JVal
  | arr (elems : List JVal) : JVal
  | obj (fields : List (String × JVal)) : JVal

/-- A JSON mapping, as carried by the four event payloads. -/
abbrev JMap := List (String × JVal)

/-- Assignment `o[key] = v` on a JS object: overwrite in place if the key
exists, else append. -/
def setKey : JMap → String → JVal → JMap
  | [], k, v => [(k, v)]
  | (k₀, v₀) :: rest, k, v =>
      if k₀ = k then (k₀, v) :: rest else (k₀, v₀) :: setKey rest k v

/-- The value a JS method without a `return` statement yields to its
caller. -/
inductive JsReturn where
  | undefined : JsReturn
deriving DecidableEq

/-- The state of a `LogView` instance (the socket handle is an external
collaborator and carries no logger state). -/
structure LogView where
  /-- `this.data["log"]`: the append-only list of snapshots
  `[timestamp, data]`. -/
  log : List (Int × JVal)
  /-- the other keys of `this.data`, added via `addData`. -/
  aux : JMap
  /-- `this.logFullState` (constructor default `true`). -/
  logFullState : Bool
  /-- `this.startTime`: `none` while `undefined`. -/
  startTime : Option Int
  /-- `this.currentObjs`. -/
  currentObjs : JMap
  /-- `this.currentGrippers`. -/
  currentGrippers : JMap
  /-- `this.currentConfig`. -/
  currentConfig : JMap

/-- The constructor `new LogView(socket, logFullState)`. -/
def LogView.init (logFullState : Bool) : LogView :=
  { log := []
    aux := []
    logFullState := logFullState
    startTime := none
    currentObjs := []
    currentGrippers := []
    currentConfig := [] }

/-- `_addSnapshot(timestamp, data)`: `this.data["log"].push([timestamp, data])`. -/
def LogView.addSnapshot (s : LogView) (timestamp : Int) (data : JVal) : LogView :=
  { s with log := s.log ++ [(timestamp, data)] }

/-- `_getFullState()`: the object holding objs, grippers and config as
received last. -/
def LogView.getFullState (s : LogView) : JVal :=
  .obj [("objs", .obj s.currentObjs),
        ("grippers", .obj s.currentGrippers),
        ("config", .obj s.currentConfig)]

/-- Common tail of the `update_state` handler once `timeOffset` is known:
in full-state mode overwrite objs and grippers substate and snapshot the
reconstructed full state, in delta mode snapshot the payload verbatim. -/
def LogView.recordState (s : LogView) (objs grippers : JMap) (timeOffset : Int) :
    LogView :=
  if s.logFullState then
    let s := { s with currentObjs := objs, currentGrippers := grippers }
    s.addSnapshot timeOffset s.getFullState
  else
    s.addSnapshot timeOffset (.obj [("objs", .obj objs), ("grippers", .obj grippers)])

/-- The `update_state` event handler. Payload: an object with fields
`objs` and `grippers`. -/
def LogView.onUpdateState (s : LogView) (objs grippers : JMap) (now : Int) :
    LogView :=
  match s.startTime with
  | none =>
      -- do not start logging if an empty state was sent
      if objs.isEmpty && grippers.isEmpty then s
      else ({ s with startTime := some now }).recordState objs grippers 0
  | some start => s.recordState objs grippers (now - start)

/-- The `update_grippers` event handler. -/
def LogView.onUpdateGrippers (s : LogView) (grippers : JMap) (now : Int) :
    LogView :=
  match s.startTime with
  | some start =>
      let timeOffset := now - start
      if s.logFullState then
        let s := { s with currentGrippers := grippers }
        s.addSnapshot timeOffset s.getFullState
      else
        s.addSnapshot timeOffset (.obj [("gripper", .obj grippers)])
  | none => s

/-- The `update_objs` event handler. -/
def LogView.onUpdateObjs (s : LogView) (objs : JMap) (now : Int) : LogView :=
  match s.startTime with
  | some start =>
      let timeOffset := now - start
      if s.logFullState then
        let s := { s with currentObjs := objs }
        s.addSnapshot timeOffset s.getFullState
      else
        s.addSnapshot timeOffset (.obj [("objs", .obj objs)])
  | none => s

/-- The `update_config` event handler. -/
def LogView.onUpdateConfig (s : LogView) (config : JMap) (now : Int) : LogView :=
  match s.startTime with
  | some start =>
      let timeOffset := now - start
      if s.logFullState then
        let s := { s with currentConfig := config }
        s.addSnapshot timeOffset s.getFullState
      else
        s.addSnapshot timeOffset (.obj [("config", .obj config)])
  | none =>
      if s.logFullState then
        -- save the config for later in case it arrived before the first state
        { s with currentConfig := config }
      else
        -- save the config once in the beginning in case it arrived early
        s.addSnapshot (-1) (.obj [("config", .obj config)])

/-- The four named events the logger subscribes to, with their payloads. -/
inductive Event where
  | update_state (objs grippers : JMap) : Event
  | update_grippers (grippers : JMap) : Event
  | update_objs (objs : JMap) : Event
  | update_config (config : JMap) : Event

/-- Dispatch one delivered event, arriving at wall-clock time `now`. -/
def LogView.step (s : LogView) (e : Event) (now : Int) : LogView :=
  match e with
  | .update_state objs grippers => s.onUpdateState objs grippers now
  | .update_grippers grippers => s.onUpdateGrippers grippers now
  | .update_objs objs => s.onUpdateObjs objs now
  | .update_config config => s.onUpdateConfig config now

/-- Process a sequence of events, each paired with its arrival time. -/
def LogView.run (s : LogView) : List (Event × Int) → LogView
  | [] => s
  | (e, t) :: rest => (s.step e t).run rest

/-- `addData(key, data)`: the successor state, the console output, and
the JS return value (no `return` statement on either path). -/
def LogView.addData (s : LogView) (key : String) (data : JVal) :
    LogView × List String × JsReturn :=
  if key = "log" then
    -- the key "log" is reserved for the collected event data
    (s, ["Error at LogView: Cannot manually add data with reserved key \x27log\x27."],
      .undefined)
  else
    ({ s with aux := setKey s.aux key data }, [], .undefined)

/-- `clear()`: delete any data collected so far. -/
def LogView.clear (s : LogView) : LogView :=
  { s with
    log := []
    aux := []
    startTime := none
    currentObjs := []
    currentGrippers := []
    currentConfig := [] }

/-- Modelled from the claim wording (not the source): whether an event,
arriving in state `s`, qualifies for recording — it excludes a full-state
event arriving while the clock is unset with both objs and grippers
empty, excludes gripper and object updates arriving while the clock is
unset, and excludes config updates arriving while the clock is unset in
full-state mode. -/
def qualifiesForRecording (s : LogView) (e : Event) : Bool :=
  match e with
  | .update_state objs grippers =>
      !(s.startTime.isNone && objs.isEmpty && grippers.isEmpty)
  | .update_grippers _ => s.startTime.isSome
  | .update_objs _ => s.startTime.isSome
  | .update_config _ => !(s.startTime.isNone && s.logFullState)

/-- The number of events of a timed sequence that qualify for recording,
each judged in the state the logger has reached when it arrives. -/
def qualCount (s : LogView) : List (Event × Int) → Nat
  | [] => 0
  | (e, t) :: rest =>
      (if qualifiesForRecording s e then 1 else 0) + qualCount (s.step e t) rest

/-! ## Helper lemmas -/

theorem recordState_log_length (s : LogView) (o g : JMap) (off : Int) :
    ((s.recordState o g off).log).length = s.log.length + 1 := by
  unfold LogView.recordState
  split <;> simp [LogView.addSnapshot]

theorem step_log_length (s : LogView) (e : Event) (t : Int) :
    ((s.step e t).log).length =
      s.log.length + (if qualifiesForRecording s e then 1 else 0) := by
  cases e with
  | update_state objs grippers =>
      cases hst : s.startTime with
      | none =>
          by_cases hemp : (objs.isEmpty && grippers.isEmpty) = true
          · simp [LogView.step, LogView.onUpdateState, qualifiesForRecording,
              hst, hemp]
          · simp [LogView.step, LogView.onUpdateState, qualifiesForRecording,
              hst, hemp, recordState_log_length]
      | some start =>
          simp [LogView.step, LogView.onUpdateState, qualifiesForRecording,
            hst, recordState_log_length]
  | update_grippers grippers =>
      cases hst : s.startTime with
      | none =>
          simp [LogView.step, LogView.onUpdateGrippers, qualifiesForRecording, hst]
      | some start =>
          simp only [LogView.step, LogView.onUpdateGrippers, qualifiesForRecording, hst]
          split <;> simp [LogView.addSnapshot]
  | update_objs objs =>
      cases hst : s.startTime with
      | none =>
          simp [LogView.step, LogView.onUpdateObjs, qualifiesForRecording, hst]
      | some start =>
          simp only [LogView.step, LogView.onUpdateObjs, qualifiesForRecording, hst]
          split <;> simp [LogView.addSnapshot]
  | update_config config =>
      cases hst : s.startTime with
      | none =>
          by_cases hfull : s.logFullState
          · simp [LogView.step, LogView.onUpdateConfig, qualifiesForRecording,
              hst, hfull]
          · simp [LogView.step, LogView.onUpdateConfig, qualifiesForRecording,
              hst, hfull, LogView.addSnapshot]
      | some start =>
          simp only [LogView.step, LogView.onUpdateConfig, qualifiesForRecording, hst]
          split <;> simp [LogView.addSnapshot]

theorem run_log_length (evs : List (Event × Int)) (s : LogView) :
    ((s.run evs).log).length = s.log.length + qualCount s evs := by
  induction evs generalizing s with
  | nil => simp [LogView.run, qualCount]
  | cons et rest ih =>
      obtain ⟨e, t⟩ := et
      rw [LogView.run, qualCount, ih, step_log_length]
      omega

/-! ## Claims -/

/-- C1: for every sequence of events processed by a freshly constructed
logger, in either mode, the length of the log equals exactly the number
of events that qualify for recording: excluded are a full-state event
arriving while the clock is unset with both objs and grippers empty,
gripper and object updates arriving while the clock is unset, and config
updates arriving while the clock is unset in full-state mode; every
other event appends exactly one snapshot. -/
theorem log_length_counts_qualifying_events (mode : Bool)
    (evs : List (Event × Int)) :
    (((LogView.init mode).run evs).log).length =
      qualCount (LogView.init mode) evs := by
  simpa [LogView.init] using run_log_length evs (LogView.init mode)

/-- C2: on a fresh full-state-mode logger with clock unset, a first
full-state event with non-empty objs sets the session clock and appends
exactly one snapshot at offset 0 whose payload is the complete state
with objs, grippers, and the still-empty initial config. -/
theorem first_nonempty_state_starts_session (objs grippers : JMap) (t : Int)
    (h : objs.isEmpty = false) :
    (LogView.init true).step (.update_state objs grippers) t =
      { log := [((0 : Int), JVal.obj [("objs", .obj objs),
                  ("grippers", .obj grippers), ("config", .obj [])])]
        aux := []
        logFullState := true
        startTime := some t
        currentObjs := objs
        currentGrippers := grippers
        currentConfig := [] } := by
  simp [LogView.step, LogView.onUpdateState, LogView.init, LogView.recordState,
    LogView.addSnapshot, LogView.getFullState, h]

theorem first_nonempty_state_starts_session_witness :
    (LogView.init true).step (.update_state [("a", JVal.num 1)] []) 100 =
      { log := [((0 : Int), JVal.obj [("objs", .obj [("a", JVal.num 1)]),
                  ("grippers", .obj []), ("config", .obj [])])]
        aux := []
        logFullState := true
        startTime := some 100
        currentObjs := [("a", JVal.num 1)]
        currentGrippers := []
        currentConfig := [] } :=
  first_nonempty_state_starts_session [("a", JVal.num 1)] [] 100 rfl

/-- C3: on any logger whose session clock is unset, a full-state event
with both objs and grippers empty is ignored entirely: the state is
completely unchanged (no snapshot, clock still unset, substate intact). -/
theorem empty_initial_state_ignored (s : LogView) (t : Int)
    (h : s.startTime = none) :
    s.step (.update_state [] []) t = s := by
  simp [LogView.step, LogView.onUpdateState, h]

theorem empty_initial_state_ignored_witness :
    (⟨[(3, JVal.null)], [("k", JVal.num 2)], true, none,
        [("o", JVal.null)], [], []⟩ : LogView).step (.update_state [] []) 7 =
      ⟨[(3, JVal.null)], [("k", JVal.num 2)], true, none,
        [("o", JVal.null)], [], []⟩ :=
  empty_initial_state_ignored _ 7 rfl

/-- C4: in full-state mode with the clock unset, a config event appends
no snapshot but caches the config in the accumulated substate, and a
later qualifying full-state event records a snapshot containing that
cached config. -/
theorem prestart_config_cached_fullstate (s : LogView) (c : JMap) (t : Int)
    (hfull : s.logFullState = true) (hclock : s.startTime = none) :
    s.step (.update_config c) t = { s with currentConfig := c } ∧
    (∀ objs grippers u, (objs.isEmpty && grippers.isEmpty) = false →
      ((s.step (.update_config c) t).step (.update_state objs grippers) u).log =
        s.log ++ [((0 : Int), JVal.obj [("objs", .obj objs),
          ("grippers", .obj grippers), ("config", .obj c)])]) := by
  constructor
  · simp [LogView.step, LogView.onUpdateConfig, hclock, hfull]
  · intro objs grippers u hne
    simp [LogView.step, LogView.onUpdateConfig, LogView.onUpdateState, hclock,
      hfull, hne, LogView.recordState, LogView.addSnapshot, LogView.getFullState]

theorem prestart_config_cached_fullstate_witness :
    (((LogView.init true).step (.update_config [("speed", JVal.num 5)]) 7).step
        (.update_state [("a", JVal.num 1)] []) 9).log =
      [((0 : Int), JVal.obj [("objs", .obj [("a", JVal.num 1)]),
        ("grippers", .obj []), ("config", .obj [("speed", JVal.num 5)])])] := by
  simpa using
    (prestart_config_cached_fullstate (LogView.init true)
      [("speed", JVal.num 5)] 7 rfl rfl).2 [("a", JVal.num 1)] [] 9 rfl

/-- C5: in delta mode with the clock unset, a config event immediately
appends a snapshot with sentinel offset -1 and payload wrapping the
config; moreover config is the only event kind whose processing can
append a snapshot while leaving the session clock unset. -/
theorem prestart_config_delta_recorded (s : LogView) (c : JMap) (t : Int)
    (hdelta : s.logFullState = false) (hclock : s.startTime = none) :
    s.step (.update_config c) t =
      { s with log := s.log ++ [((-1 : Int), JVal.obj [("config", .obj c)])] } ∧
    (∀ e u, (s.step e u).startTime = none → (s.step e u).log ≠ s.log →
      ∃ c₂, e = .update_config c₂) := by
  constructor
  · simp [LogView.step, LogView.onUpdateConfig, hclock, hdelta, LogView.addSnapshot]
  · intro e u hstill hlog
    cases e with
    | update_state objs grippers =>
        exfalso
        by_cases hemp : (objs.isEmpty && grippers.isEmpty) = true
        · exact hlog (by simp [LogView.step, LogView.onUpdateState, hclock, hemp])
        · rw [Bool.not_eq_true] at hemp
          simp [LogView.step, LogView.onUpdateState, hclock, hemp,
            LogView.recordState, hdelta, LogView.addSnapshot] at hstill
    | update_grippers g =>
        exact absurd (by simp [LogView.step, LogView.onUpdateGrippers, hclock]) hlog
    | update_objs o =>
        exact absurd (by simp [LogView.step, LogView.onUpdateObjs, hclock]) hlog
    | update_config c₂ => exact ⟨c₂, rfl⟩

theorem prestart_config_delta_recorded_witness :
    (LogView.init false).step (.update_config [("x", JVal.num 2)]) 3 =
      { LogView.init false with
        log := [((-1 : Int), JVal.obj [("config", .obj [("x", JVal.num 2)])])] } := by
  simpa using
    (prestart_config_delta_recorded (LogView.init false) [("x", JVal.num 2)] 3
      rfl rfl).1

/-- C6 counterexample: `addData` has no `return` statement on either
path, so a call rejected for using the reserved key "log" yields the
same `undefined` to its caller as a successful call with another key —
the return value cannot indicate the rejection. -/
theorem addData_return_does_not_indicate_rejection :
    ((LogView.init true).addData "log"
        (JVal.arr [JVal.num 1, JVal.num 2, JVal.num 3])).2.2 =
      ((LogView.init true).addData "score" (JVal.num 7)).2.2 ∧
    ((LogView.init true).addData "log"
        (JVal.arr [JVal.num 1, JVal.num 2, JVal.num 3])).2.2 =
      JsReturn.undefined := by
  constructor <;> rfl

/-- C6, amended: calling `addData` with the reserved key "log" leaves
the data object unchanged (log and auxiliary entries keep their previous
values) and emits a diagnostic console message; the call returns the
same `undefined` as a successful call, so the rejection is reported only
through the diagnostic, not through the return value. -/
theorem addData_reserved_key_rejected (s : LogView) (v : JVal) :
    s.addData "log" v =
      (s, ["Error at LogView: Cannot manually add data with reserved key \x27log\x27."],
        JsReturn.undefined) := by
  simp [LogView.addData]

theorem step_preserves_startTime (s : LogView) (e : Event) (t x : Int)
    (h : s.startTime = some x) : (s.step e t).startTime = some x := by
  cases e <;>
    simp only [LogView.step, LogView.onUpdateState, LogView.onUpdateGrippers,
      LogView.onUpdateObjs, LogView.onUpdateConfig, LogView.recordState, h] <;>
    split <;> simp [LogView.addSnapshot, h]

/-- C7: once the session clock is set, no event reaction modifies it;
the clear operation un-sets it, and after clear a qualifying full-state
event restarts timing, setting the clock to its arrival time and
recording its snapshot at offset 0. -/
theorem session_clock_immutable_until_clear (s : LogView) (x : Int)
    (h : s.startTime = some x) :
    (∀ e t, (s.step e t).startTime = some x) ∧
    s.clear.startTime = none ∧
    (∀ objs grippers t, (objs.isEmpty && grippers.isEmpty) = false →
      (s.clear.step (.update_state objs grippers) t).startTime = some t ∧
      ∃ payload, (s.clear.step (.update_state objs grippers) t).log =
        [((0 : Int), payload)]) := by
  refine ⟨fun e t => step_preserves_startTime s e t x h, rfl, fun objs grippers t hne => ?_⟩
  by_cases hfull : s.logFullState
  · constructor
    · simp [LogView.clear, LogView.step, LogView.onUpdateState, hne,
        LogView.recordState, hfull, LogView.addSnapshot]
    · exact ⟨JVal.obj [("objs", .obj objs), ("grippers", .obj grippers),
          ("config", .obj [])],
        by simp [LogView.clear, LogView.step, LogView.onUpdateState, hne,
          LogView.recordState, hfull, LogView.addSnapshot, LogView.getFullState]⟩
  · rw [Bool.not_eq_true] at hfull
    constructor
    · simp [LogView.clear, LogView.step, LogView.onUpdateState, hne,
        LogView.recordState, hfull, LogView.addSnapshot]
    · exact ⟨JVal.obj [("objs", .obj objs), ("grippers", .obj grippers)],
        by simp [LogView.clear, LogView.step, LogView.onUpdateState, hne,
          LogView.recordState, hfull, LogView.addSnapshot]⟩

theorem session_clock_immutable_until_clear_witness :
    ((⟨[], [], true, some 5, [], [], []⟩ : LogView).step (.update_objs []) 9).startTime =
      some 5 ∧
    (⟨[], [], true, some 5, [], [], []⟩ : LogView).clear.startTime = none ∧
    ((⟨[], [], true, some 5, [], [], []⟩ : LogView).clear.step
        (.update_state [("a", JVal.num 1)] []) 11).startTime = some 11 := by
  obtain ⟨h1, h2, h3⟩ :=
    session_clock_immutable_until_clear ⟨[], [], true, some 5, [], [], []⟩ 5 rfl
  exact ⟨h1 (.update_objs []) 9, h2, (h3 [("a", JVal.num 1)] [] 11 rfl).1⟩

/-- C8: clear is idempotent — clearing twice equals clearing once — and
the cleared state equals a freshly constructed logger in the same mode:
empty log, no auxiliary keys, unset clock, all three accumulated
substate fields empty. -/
theorem clear_idempotent_and_equals_fresh (s : LogView) :
    s.clear.clear = s.clear ∧ s.clear = LogView.init s.logFullState := by
  constructor <;> rfl

/-- C9: in delta mode, every gripper update processed after the session
clock is set appends a snapshot whose payload wraps the received mapping
under the singular key "gripper". -/
theorem delta_gripper_snapshot_singular_key (s : LogView) (g : JMap) (t x : Int)
    (hdelta : s.logFullState = false) (hclock : s.startTime = some x) :
    s.step (.update_grippers g) t =
      { s with log := s.log ++ [((t - x : Int), JVal.obj [("gripper", .obj g)])] } := by
  simp [LogView.step, LogView.onUpdateGrippers, hclock, hdelta, LogView.addSnapshot]

theorem delta_gripper_snapshot_singular_key_witness :
    (⟨[], [], false, some 2, [], [], []⟩ : LogView).step
        (.update_grippers [("g1", JVal.num 0)]) 10 =
      ⟨[((8 : Int), JVal.obj [("gripper", .obj [("g1", JVal.num 0)])])],
        [], false, some 2, [], [], []⟩ := by
  simpa using
    delta_gripper_snapshot_singular_key ⟨[], [], false, some 2, [], [], []⟩
      [("g1", JVal.num 0)] 10 2 rfl rfl

/-- C10: in full-state mode, each partial-update reaction touches only
its own accumulated-substate field: a gripper update leaves the
accumulated objects and config unchanged, an object update leaves the
accumulated grippers and config unchanged, a config update leaves the
accumulated objects and grippers unchanged, and none of them modifies
the auxiliary data entries. -/
theorem fullstate_partial_updates_frame (s : LogView)
    (h : s.logFullState = true) :
    (∀ g t, (s.step (.update_grippers g) t).currentObjs = s.currentObjs ∧
      (s.step (.update_grippers g) t).currentConfig = s.currentConfig ∧
      (s.step (.update_grippers g) t).aux = s.aux) ∧
    (∀ o t, (s.step (.update_objs o) t).currentGrippers = s.currentGrippers ∧
      (s.step (.update_objs o) t).currentConfig = s.currentConfig ∧
      (s.step (.update_objs o) t).aux = s.aux) ∧
    (∀ c t, (s.step (.update_config c) t).currentObjs = s.currentObjs ∧
      (s.step (.update_config c) t).currentGrippers = s.currentGrippers ∧
      (s.step (.update_config c) t).aux = s.aux) := by
  refine ⟨fun g t => ?_, fun o t => ?_, fun c t => ?_⟩ <;>
    cases hst : s.startTime <;>
      simp [LogView.step, LogView.onUpdateGrippers, LogView.onUpdateObjs,
        LogView.onUpdateConfig, hst, h, LogView.addSnapshot, LogView.getFullState]

theorem fullstate_partial_updates_frame_witness :
    ((⟨[], [("k", JVal.num 1)], true, some 0, [("o", JVal.null)],
        [("g", JVal.null)], [("c", JVal.null)]⟩ : LogView).step
      (.update_grippers []) 4).currentObjs = [("o", JVal.null)] ∧
    ((⟨[], [("k", JVal.num 1)], true, some 0, [("o", JVal.null)],
        [("g", JVal.null)], [("c", JVal.null)]⟩ : LogView).step
      (.update_objs []) 4).currentGrippers = [("g", JVal.null)] ∧
    ((⟨[], [("k", JVal.num 1)], true, some 0, [("o", JVal.null)],
        [("g", JVal.null)], [("c", JVal.null)]⟩ : LogView).step
      (.update_config []) 4).aux = [("k", JVal.num 1)] := by
  obtain ⟨h1, h2, h3⟩ :=
    fullstate_partial_updates_frame
      ⟨[], [("k", JVal.num 1)], true, some 0, [("o", JVal.null)],
        [("g", JVal.null)], [("c", JVal.null)]⟩ rfl
  exact ⟨(h1 [] 4).1, (h2 [] 4).1, (h3 [] 4).2.2⟩
